import Mathlib

/-!
Shallow embedding of the token-lifecycle core of the Granola API proxy.

Two realizations appear in the repository and are embedded side by side:
`src/api.py` (file-based persistence on a volume) in namespace `Api`, and
`src/api_fixed.py` (remote Railway configuration persistence) in namespace
`Fixed`.

Modelling conventions:
- Time is an `Int` number of seconds; `datetime.now()` becomes an explicit
  `now` parameter; `timedelta(minutes=5)` is `300`, `expires_in` is seconds.
- Python string truthiness (`if not self.access_token`) is modelled by
  `pyTruthy` / `pyTruthyOpt`: `None` and the empty string are falsy.
- The network is an oracle: a `ProviderResult` value stands for the outcome
  of `requests.post` + `raise_for_status` + `.json()` on the WorkOS endpoint,
  with the parsed JSON body reduced to the three fields the code reads.
- The persisted file is a value of type `Option FileRecord` (`none` = the
  file does not exist); whether the write in `_persist_state` succeeds is an
  oracle boolean `persistOk` (its own try/except swallows any error).
- Likewise the Railway variable store in `Fixed` is a `String` holding the
  current remote value of GRANOLA_REFRESH_TOKEN, and `railwayOk` is the
  oracle for the GraphQL mutation round-trip.
Every function returns the updated state together with its observable
effects (success flag, whether a provider call happened, the store after).
-/

/-- Python truthiness of a string: the empty string is falsy. -/
def pyTruthy (s : String) : Bool := s ≠ ""

/-- Python truthiness of an optional string: `None` and `""` are falsy. -/
def pyTruthyOpt : Option String → Bool
  | none => false
  | some s => pyTruthy s

namespace Api

/-- In-memory credential record of `TokenState.__init__` (src/api.py lines
36-43): `access_token` and `token_expiry` start absent, `refresh_token` and
`client_id` are seeded from the environment (defaulting to `""`). -/
structure TokenState where
  access_token : Option String
  refresh_token : String
  client_id : String
  token_expiry : Option Int
  deriving DecidableEq

/-- The result of parsing the persisted `token_expiry` field: the ISO string
either parses to a timestamp or `datetime.fromisoformat` raises. -/
inductive ExpiryField where
  | malformed : ExpiryField
  | valid : Int → ExpiryField
  deriving DecidableEq

/-- The JSON object parsed from the token-state file, reduced to the fields
`_load_persisted_state` reads via `.get` (absent key and `null` collapse to
`none`). -/
structure PersistedState where
  refresh_token : Option String
  access_token : Option String
  token_expiry : Option ExpiryField
  deriving DecidableEq

/-- Outcome of trying to read the token-state file at startup. -/
inductive FileRead where
  | missing : FileRead
  | unreadable : FileRead
  | content : PersistedState → FileRead
  deriving DecidableEq

/-- Embedding of `TokenState._load_persisted_state` (src/api.py lines 45-67).
A missing file skips the block; an unreadable or unparsable file raises and
the except clause leaves the state as is. Otherwise a truthy persisted
refresh token is adopted first; then, if the stored expiry parses and `now`
is strictly before expiry minus the 5-minute buffer, the persisted access
token and expiry are restored. A malformed expiry string raises after the
refresh-token assignment, so that assignment survives. -/
def loadPersistedState (st : TokenState) (now : Int) (file : FileRead) :
    TokenState :=
  match file with
  | .missing => st
  | .unreadable => st
  | .content ps =>
    let st1 :=
      if pyTruthyOpt ps.refresh_token then
        { st with refresh_token := ps.refresh_token.getD "" }
      else st
    match ps.token_expiry with
    | none => st1
    | some .malformed => st1
    | some (.valid e) =>
      if now < e - 300 then
        { st1 with access_token := ps.access_token, token_expiry := some e }
      else st1

/-- Embedding of `TokenState.__init__` (src/api.py lines 36-43): fields
seeded from the environment, then `_load_persisted_state` runs. -/
def TokenState.init (envRefresh envClient : String) (now : Int)
    (file : FileRead) : TokenState :=
  loadPersistedState ⟨none, envRefresh, envClient, none⟩ now file

/-- Embedding of `TokenState.is_expired` (src/api.py lines 85-89): true when
the access token or expiry is Python-falsy, or `now` is at or past the
expiry minus the 5-minute buffer. -/
def TokenState.is_expired (st : TokenState) (now : Int) : Bool :=
  if ¬ pyTruthyOpt st.access_token then true
  else
    match st.token_expiry with
    | none => true
    | some e => decide (now ≥ e - 300)

/-- The three fields `refresh` reads from a successfully parsed WorkOS JSON
body via `.get` (absent key collapses to `none`). -/
structure ProviderJson where
  access_token : Option String
  refresh_token : Option String
  expires_in : Option Int
  deriving DecidableEq

/-- Oracle for the provider round-trip inside `refresh`: `requests.post`
raising, `raise_for_status` raising on a non-2xx status, `.json()` raising
on a non-JSON body, or a parsed 2xx body. -/
inductive ProviderResult where
  | netError : ProviderResult
  | httpError : ProviderResult
  | jsonError : ProviderResult
  | ok : ProviderJson → ProviderResult
  deriving DecidableEq

/-- The record `_persist_state` writes (src/api.py lines 69-83): the full
token state plus a save timestamp. -/
structure FileRecord where
  refresh_token : String
  access_token : Option String
  token_expiry : Option Int
  updated_at : Int
  deriving DecidableEq

/-- Embedding of `TokenState._persist_state` (src/api.py lines 69-83): the
record it writes when the write succeeds. -/
def persistState (st : TokenState) (now : Int) : FileRecord :=
  ⟨st.refresh_token, st.access_token, st.token_expiry, now⟩

/-- Observable outcome of one `refresh` call. -/
structure RefreshResult where
  state : TokenState
  success : Bool
  providerCalled : Bool
  fileAfter : Option FileRecord
  deriving DecidableEq

/-- Embedding of `TokenState.refresh` (src/api.py lines 91-136). Guards on a
falsy refresh token then a falsy client id; any provider-side exception hits
the except clause before any field assignment; on a parsed 2xx body it
assigns `access_token` from the body (possibly `None`), rotates
`refresh_token` when the body carries a truthy one differing from the
current value, sets `token_expiry` from `expires_in` (default 3600), calls
`_persist_state` (whose own failure is swallowed), and returns `True`. -/
def TokenState.refresh (st : TokenState) (now : Int)
    (provider : ProviderResult) (persistOk : Bool)
    (fileBefore : Option FileRecord) : RefreshResult :=
  if ¬ pyTruthy st.refresh_token then ⟨st, false, false, fileBefore⟩
  else if ¬ pyTruthy st.client_id then ⟨st, false, false, fileBefore⟩
  else
    match provider with
    | .netError => ⟨st, false, true, fileBefore⟩
    | .httpError => ⟨st, false, true, fileBefore⟩
    | .jsonError => ⟨st, false, true, fileBefore⟩
    | .ok r =>
      let st1 := { st with access_token := r.access_token }
      let st2 :=
        match r.refresh_token with
        | some nr =>
          if pyTruthy nr ∧ nr ≠ st1.refresh_token then
            { st1 with refresh_token := nr }
          else st1
        | none => st1
      let st3 := { st2 with token_expiry := some (now + r.expires_in.getD 3600) }
      let fileAfter := if persistOk then some (persistState st3 now) else fileBefore
      ⟨st3, true, true, fileAfter⟩

/-- Observable outcome of one `get_token` call. -/
structure GetTokenResult where
  state : TokenState
  token : Option String
  providerCalled : Bool
  fileAfter : Option FileRecord
  deriving DecidableEq

/-- Embedding of `TokenState.get_token` (src/api.py lines 138-143): refresh
when expired, returning `None` on refresh failure, else the current access
token. -/
def TokenState.get_token (st : TokenState) (now : Int)
    (provider : ProviderResult) (persistOk : Bool)
    (fileBefore : Option FileRecord) : GetTokenResult :=
  if st.is_expired now then
    let res := st.refresh now provider persistOk fileBefore
    if res.success then
      ⟨res.state, res.state.access_token, res.providerCalled, res.fileAfter⟩
    else
      ⟨res.state, none, res.providerCalled, res.fileAfter⟩
  else ⟨st, st.access_token, false, fileBefore⟩

/-- The JSON object the `/health` handler returns (src/api.py lines 165-175),
with the final field holding `refresh_token[:10] + "..."` when the refresh
token is truthy. -/
structure HealthResponse where
  healthy : Bool
  token_valid : Bool
  token_expiry : Option Int
  persistence_enabled : Bool
  refresh_token_hint : Option String
  deriving DecidableEq

/-- Observable outcome of one `/health` call. -/
structure HealthResult where
  state : TokenState
  response : HealthResponse
  providerCalled : Bool
  fileAfter : Option FileRecord
  deriving DecidableEq

/-- Embedding of the `health` handler (src/api.py lines 165-175): it calls
`token_state.get_token()` first, then reports from the post-call state. -/
def health (st : TokenState) (now : Int) (provider : ProviderResult)
    (persistOk : Bool) (fileBefore : Option FileRecord) : HealthResult :=
  let g := st.get_token now provider persistOk fileBefore
  { state := g.state
    response :=
      { healthy := pyTruthyOpt g.token
        token_valid := g.token.isSome
        token_expiry := g.state.token_expiry
        persistence_enabled := g.fileAfter.isSome
        refresh_token_hint :=
          if pyTruthy g.state.refresh_token then
            some (g.state.refresh_token.take 10 ++ "...")
          else none }
    providerCalled := g.providerCalled
    fileAfter := g.fileAfter }

end Api

namespace Fixed

/-- In-memory state of `TokenState.__init__` in src/api_fixed.py (lines
32-41): the credential fields plus the Railway control-plane credentials,
all seeded from the environment (defaulting to `""`); there is no
file-loading step in this variant. -/
structure TokenState where
  access_token : Option String
  refresh_token : String
  client_id : String
  token_expiry : Option Int
  railway_token : String
  railway_env_id : String
  railway_service_id : String
  deriving DecidableEq

/-- Embedding of `TokenState.is_expired` in src/api_fixed.py (lines 43-47),
textually identical to the one in src/api.py. -/
def TokenState.is_expired (st : TokenState) (now : Int) : Bool :=
  if ¬ pyTruthyOpt st.access_token then true
  else
    match st.token_expiry with
    | none => true
    | some e => decide (now ≥ e - 300)

/-- Embedding of `TokenState._persist_refresh_token` (src/api_fixed.py lines
49-93). Returns the success flag together with the remote value of the
GRANOLA_REFRESH_TOKEN variable after the call: a falsy Railway credential
aborts before any network call; otherwise `railwayOk` is the oracle for the
GraphQL mutation round-trip (covering both a raised exception and an
`errors` field in the response body). -/
def persistRefreshToken (st : TokenState) (newToken : String)
    (railwayOk : Bool) (remoteBefore : String) : Bool × String :=
  if ¬ pyTruthy st.railway_token ∨ ¬ pyTruthy st.railway_env_id ∨
      ¬ pyTruthy st.railway_service_id then
    (false, remoteBefore)
  else if railwayOk then (true, newToken)
  else (false, remoteBefore)

/-- Observable outcome of one `refresh` call in the remote-strategy variant. -/
structure RefreshResult where
  state : TokenState
  success : Bool
  providerCalled : Bool
  remoteAfter : String
  deriving DecidableEq

/-- Embedding of `TokenState.refresh` (src/api_fixed.py lines 95-135). The
credential guard is a single combined check; the provider interaction and
the field updates mirror src/api.py, except that persistence
(`_persist_refresh_token`, whose boolean result is discarded) runs only
inside the rotation branch. -/
def TokenState.refresh (st : TokenState) (now : Int)
    (provider : Api.ProviderResult) (railwayOk : Bool)
    (remoteBefore : String) : RefreshResult :=
  if ¬ pyTruthy st.refresh_token ∨ ¬ pyTruthy st.client_id then
    ⟨st, false, false, remoteBefore⟩
  else
    match provider with
    | .netError => ⟨st, false, true, remoteBefore⟩
    | .httpError => ⟨st, false, true, remoteBefore⟩
    | .jsonError => ⟨st, false, true, remoteBefore⟩
    | .ok r =>
      let st1 := { st with access_token := r.access_token }
      match r.refresh_token with
      | some nr =>
        if pyTruthy nr ∧ nr ≠ st1.refresh_token then
          let st2 := { st1 with refresh_token := nr }
          let remoteAfter := (persistRefreshToken st2 nr railwayOk remoteBefore).2
          let st3 := { st2 with token_expiry := some (now + r.expires_in.getD 3600) }
          ⟨st3, true, true, remoteAfter⟩
        else
          ⟨{ st1 with token_expiry := some (now + r.expires_in.getD 3600) },
            true, true, remoteBefore⟩
      | none =>
        ⟨{ st1 with token_expiry := some (now + r.expires_in.getD 3600) },
          true, true, remoteBefore⟩

/-- Observable outcome of one `get_token` call in the remote-strategy
variant. -/
structure GetTokenResult where
  state : TokenState
  token : Option String
  providerCalled : Bool
  remoteAfter : String
  deriving DecidableEq

/-- Embedding of `TokenState.get_token` (src/api_fixed.py lines 137-142). -/
def TokenState.get_token (st : TokenState) (now : Int)
    (provider : Api.ProviderResult) (railwayOk : Bool)
    (remoteBefore : String) : GetTokenResult :=
  if st.is_expired now then
    let res := st.refresh now provider railwayOk remoteBefore
    if res.success then
      ⟨res.state, res.state.access_token, res.providerCalled, res.remoteAfter⟩
    else
      ⟨res.state, none, res.providerCalled, res.remoteAfter⟩
  else ⟨st, st.access_token, false, remoteBefore⟩

/-- The JSON object the `/health` handler of src/api_fixed.py returns
(lines 164-172); this variant reports Railway persistence availability and
no part of the refresh token. -/
structure HealthResponse where
  healthy : Bool
  token_valid : Bool
  token_expiry : Option Int
  railway_persistence : Bool
  deriving DecidableEq

/-- Observable outcome of one `/health` call in the remote-strategy
variant. -/
structure HealthResult where
  state : TokenState
  response : HealthResponse
  providerCalled : Bool
  remoteAfter : String
  deriving DecidableEq

/-- Embedding of the `health` handler (src/api_fixed.py lines 164-172): it
calls `token_state.get_token()` first, then reports from the post-call
state. -/
def health (st : TokenState) (now : Int) (provider : Api.ProviderResult)
    (railwayOk : Bool) (remoteBefore : String) : HealthResult :=
  let g := st.get_token now provider railwayOk remoteBefore
  { state := g.state
    response :=
      { healthy := pyTruthyOpt g.token
        token_valid := g.token.isSome
        token_expiry := g.state.token_expiry
        railway_persistence := pyTruthy g.state.railway_token }
    providerCalled := g.providerCalled
    remoteAfter := g.remoteAfter }

end Fixed

/-! Theorems about the claims. -/

/-- C7: for every TokenState with a (truthy) access token set and a
token_expiry more than 5 minutes after the current time, get_token returns
that access token unchanged, makes no provider call, and mutates no field;
and is_expired is true exactly when the access token is absent (Python-falsy:
None or the empty string), the expiry is absent, or the current time is at or
past token_expiry minus the 5-minute buffer. -/
theorem C7_valid_token_served_without_refresh :
    (∀ (st : Api.TokenState) (now : Int) (provider : Api.ProviderResult)
        (persistOk : Bool) (fileBefore : Option Api.FileRecord)
        (a : String) (e : Int),
      st.access_token = some a → a ≠ "" → st.token_expiry = some e →
      now + 300 < e →
      st.get_token now provider persistOk fileBefore =
        ⟨st, some a, false, fileBefore⟩) ∧
    (∀ (st : Api.TokenState) (now : Int),
      st.is_expired now = true ↔
        (st.access_token = none ∨ st.access_token = some "" ∨
         st.token_expiry = none ∨
         ∃ e, st.token_expiry = some e ∧ e - 300 ≤ now)) := by
  constructor
  · intro st now provider persistOk fileBefore a e ha hne he hlt
    have hexp : st.is_expired now = false := by
      unfold Api.TokenState.is_expired
      simp [ha, he, pyTruthyOpt, pyTruthy, hne]
      omega
    simp [Api.TokenState.get_token, hexp, ha]
  · intro st now
    unfold Api.TokenState.is_expired
    rcases hat : st.access_token with _ | a
    · simp [hat, pyTruthyOpt]
    · rcases het : st.token_expiry with _ | e
      · by_cases ha : a = "" <;> simp [hat, het, pyTruthyOpt, pyTruthy, ha]
      · by_cases ha : a = ""
        · simp [hat, het, pyTruthyOpt, pyTruthy, ha]
        · simp [hat, het, pyTruthyOpt, pyTruthy, ha]
          try omega

/-- Witness for C7 at concrete inputs. -/
theorem C7_valid_token_served_without_refresh_witness :
    (Api.TokenState.get_token ⟨some "at-1", "rt-old", "cid", some 1000⟩ 0
        .netError true none =
      ⟨⟨some "at-1", "rt-old", "cid", some 1000⟩, some "at-1", false, none⟩) ∧
    (Api.TokenState.is_expired ⟨none, "rt-old", "cid", none⟩ 0 = true ↔
      ((none : Option String) = none ∨ (none : Option String) = some "" ∨
       (none : Option Int) = none ∨
       ∃ e, (none : Option Int) = some e ∧ e - 300 ≤ 0)) := by
  constructor
  · exact C7_valid_token_served_without_refresh.1 _ 0 .netError true none
      "at-1" 1000 rfl (by decide) rfl (by decide)
  · exact C7_valid_token_served_without_refresh.2 ⟨none, "rt-old", "cid", none⟩ 0

/-- C2: for every refresh call that fails because the refresh token or
client id is missing, the provider call raises a network/HTTP error, or the
provider rejects the grant (a non-2xx status), all fields of TokenState are
unchanged, the persisted store is untouched, and the caller receives the
failure result — in both the file-strategy and remote-strategy variants. -/
theorem C2_failed_refresh_leaves_state_unchanged :
    (∀ (st : Api.TokenState) (now : Int) (provider : Api.ProviderResult)
        (persistOk : Bool) (fileBefore : Option Api.FileRecord),
      (st.refresh_token = "" ∨ st.client_id = "" ∨
       provider = .netError ∨ provider = .httpError) →
      st.refresh now provider persistOk fileBefore =
        ⟨st, false, (st.refresh now provider persistOk fileBefore).providerCalled,
          fileBefore⟩) ∧
    (∀ (st : Fixed.TokenState) (now : Int) (provider : Api.ProviderResult)
        (railwayOk : Bool) (remoteBefore : String),
      (st.refresh_token = "" ∨ st.client_id = "" ∨
       provider = .netError ∨ provider = .httpError) →
      st.refresh now provider railwayOk remoteBefore =
        ⟨st, false, (st.refresh now provider railwayOk remoteBefore).providerCalled,
          remoteBefore⟩) := by
  constructor
  · intro st now provider persistOk fileBefore h
    rcases h with h | h | h | h
    · simp [Api.TokenState.refresh, pyTruthy, h]
    · by_cases hr : st.refresh_token = "" <;>
        simp [Api.TokenState.refresh, pyTruthy, hr, h]
    · subst h
      by_cases hr : st.refresh_token = ""
      · simp [Api.TokenState.refresh, pyTruthy, hr]
      · by_cases hc : st.client_id = "" <;>
          simp [Api.TokenState.refresh, pyTruthy, hr, hc]
    · subst h
      by_cases hr : st.refresh_token = ""
      · simp [Api.TokenState.refresh, pyTruthy, hr]
      · by_cases hc : st.client_id = "" <;>
          simp [Api.TokenState.refresh, pyTruthy, hr, hc]
  · intro st now provider railwayOk remoteBefore h
    rcases h with h | h | h | h
    · simp [Fixed.TokenState.refresh, pyTruthy, h]
    · simp [Fixed.TokenState.refresh, pyTruthy, h]
    · subst h
      by_cases hr : st.refresh_token = ""
      · simp [Fixed.TokenState.refresh, pyTruthy, hr]
      · by_cases hc : st.client_id = "" <;>
          simp [Fixed.TokenState.refresh, pyTruthy, hr, hc]
    · subst h
      by_cases hr : st.refresh_token = ""
      · simp [Fixed.TokenState.refresh, pyTruthy, hr]
      · by_cases hc : st.client_id = "" <;>
          simp [Fixed.TokenState.refresh, pyTruthy, hr, hc]

/-- Witness for C2 at concrete inputs: a provider rejection (non-2xx) in the
file strategy, and a missing refresh token in the remote strategy. -/
theorem C2_failed_refresh_leaves_state_unchanged_witness :
    (Api.TokenState.refresh ⟨some "at-0", "rt-old", "cid", some 900⟩ 0
        .httpError true (some ⟨"rt-old", none, none, 0⟩) =
      ⟨⟨some "at-0", "rt-old", "cid", some 900⟩, false, true,
        some ⟨"rt-old", none, none, 0⟩⟩) ∧
    (Fixed.TokenState.refresh ⟨none, "", "cid", none, "rw", "env", "svc"⟩ 0
        (.ok ⟨some "at-1", none, none⟩) true "rt-old" =
      ⟨⟨none, "", "cid", none, "rw", "env", "svc"⟩, false, false, "rt-old"⟩) := by
  constructor
  · exact C2_failed_refresh_leaves_state_unchanged.1 _ 0 .httpError true _
      (Or.inr (Or.inr (Or.inr rfl)))
  · exact C2_failed_refresh_leaves_state_unchanged.2 _ 0 _ true _ (Or.inl rfl)

/-- C6: at startup in the file strategy, a readable persisted file with a
truthy refresh_token makes the constructed state's refresh_token equal the
persisted value rather than the baseline environment value; a missing or
unreadable/corrupt file leaves exactly the baseline state and is never fatal
to construction. -/
theorem C6_startup_load_adopts_persisted_refresh_token :
    (∀ (envRefresh envClient : String) (now : Int) (ps : Api.PersistedState)
        (r : String),
      ps.refresh_token = some r → r ≠ "" →
      (Api.TokenState.init envRefresh envClient now (.content ps)).refresh_token
        = r) ∧
    (∀ (envRefresh envClient : String) (now : Int),
      Api.TokenState.init envRefresh envClient now .missing =
        ⟨none, envRefresh, envClient, none⟩ ∧
      Api.TokenState.init envRefresh envClient now .unreadable =
        ⟨none, envRefresh, envClient, none⟩) := by
  constructor
  · intro envRefresh envClient now ps r hr hne
    unfold Api.TokenState.init Api.loadPersistedState
    rcases hte : ps.token_expiry with _ | (_ | e)
    · simp [hte, hr, pyTruthyOpt, pyTruthy, hne]
    · simp [hte, hr, pyTruthyOpt, pyTruthy, hne]
    · by_cases hfresh : now < e - 300 <;>
        simp [hte, hr, pyTruthyOpt, pyTruthy, hne, hfresh]
  · intro envRefresh envClient now
    exact ⟨rfl, rfl⟩

/-- Witness for C6 at concrete inputs: a persisted token "rt-persisted"
overrides the baseline "rt-baseline"; a missing and an unreadable file leave
the baseline state. -/
theorem C6_startup_load_adopts_persisted_refresh_token_witness :
    ((Api.TokenState.init "rt-baseline" "cid" 0
        (.content ⟨some "rt-persisted", none, none⟩)).refresh_token
      = "rt-persisted") ∧
    (Api.TokenState.init "rt-baseline" "cid" 0 .missing =
      ⟨none, "rt-baseline", "cid", none⟩ ∧
     Api.TokenState.init "rt-baseline" "cid" 0 .unreadable =
      ⟨none, "rt-baseline", "cid", none⟩) := by
  constructor
  · exact C6_startup_load_adopts_persisted_refresh_token.1 "rt-baseline" "cid" 0
      _ "rt-persisted" rfl (by decide)
  · exact C6_startup_load_adopts_persisted_refresh_token.2 "rt-baseline" "cid" 0

/-- Helper: any access token present after the startup load comes from the
fresh-expiry branch, which also restores the persisted expiry. -/
theorem load_access_token_fresh (envRefresh envClient : String) (now : Int)
    (ps : Api.PersistedState)
    (hne : (Api.TokenState.init envRefresh envClient now
        (.content ps)).access_token ≠ none) :
    ∃ e, ps.token_expiry = some (.valid e) ∧ now < e - 300 ∧
      (Api.TokenState.init envRefresh envClient now (.content ps)).access_token
        = ps.access_token ∧
      (Api.TokenState.init envRefresh envClient now (.content ps)).token_expiry
        = some e := by
  unfold Api.TokenState.init Api.loadPersistedState at hne ⊢
  rcases hte : ps.token_expiry with _ | (_ | e)
  · by_cases hrt : pyTruthyOpt ps.refresh_token <;> simp [hte, hrt] at hne
  · by_cases hrt : pyTruthyOpt ps.refresh_token <;> simp [hte, hrt] at hne
  · by_cases hfresh : now < e - 300
    · refine ⟨e, rfl, hfresh, ?_, ?_⟩ <;>
        by_cases hrt : pyTruthyOpt ps.refresh_token <;>
        simp [hte, hrt, hfresh]
    · by_cases hrt : pyTruthyOpt ps.refresh_token <;>
        simp [hte, hrt, hfresh] at hne

/-- C10: at startup in the file strategy, a persisted access token is
restored only when the persisted expiry parses and is more than 5 minutes
after the current time; a state freshly loaded with a (truthy) restored
access token is not expired at load time; and a persisted access token at or
within the buffer is discarded while a truthy persisted refresh token is
still adopted. -/
theorem C10_access_token_restored_only_when_fresh :
    (∀ (envRefresh envClient : String) (now : Int) (ps : Api.PersistedState),
      (Api.TokenState.init envRefresh envClient now (.content ps)).access_token
        ≠ none →
      ∃ e, ps.token_expiry = some (.valid e) ∧ now < e - 300 ∧
        (Api.TokenState.init envRefresh envClient now (.content ps)).access_token
          = ps.access_token ∧
        (Api.TokenState.init envRefresh envClient now (.content ps)).token_expiry
          = some e) ∧
    (∀ (envRefresh envClient : String) (now : Int) (ps : Api.PersistedState)
        (a : String),
      (Api.TokenState.init envRefresh envClient now (.content ps)).access_token
        = some a → a ≠ "" →
      (Api.TokenState.init envRefresh envClient now (.content ps)).is_expired now
        = false) ∧
    (∀ (envRefresh envClient : String) (now : Int) (ps : Api.PersistedState)
        (e : Int),
      ps.token_expiry = some (.valid e) → e - 300 ≤ now →
      (Api.TokenState.init envRefresh envClient now (.content ps)).access_token
        = none ∧
      ∀ r, ps.refresh_token = some r → r ≠ "" →
        (Api.TokenState.init envRefresh envClient now (.content ps)).refresh_token
          = r) := by
  refine ⟨?_, ?_, ?_⟩
  · intro envRefresh envClient now ps hne
    exact load_access_token_fresh envRefresh envClient now ps hne
  · intro envRefresh envClient now ps a ha hane
    have hne : (Api.TokenState.init envRefresh envClient now
        (.content ps)).access_token ≠ none := by
      rw [ha]; exact Option.some_ne_none a
    obtain ⟨e, hte, hfresh, hacc, hexp⟩ :=
      load_access_token_fresh envRefresh envClient now ps hne
    unfold Api.TokenState.is_expired
    rw [ha, hexp]
    simp [pyTruthyOpt, pyTruthy, hane]
    omega
  · intro envRefresh envClient now ps e hte hstale
    constructor
    · unfold Api.TokenState.init Api.loadPersistedState
      by_cases hrt : pyTruthyOpt ps.refresh_token <;>
        simp [hte, hrt, not_lt.mpr hstale]
    · intro r hr hrne
      unfold Api.TokenState.init Api.loadPersistedState
      simp [hte, hr, pyTruthyOpt, pyTruthy, hrne, not_lt.mpr hstale]

/-- Witness for C10 at concrete inputs: a fresh persisted expiry (t = 1000,
now = 0) restores the access token and yields a non-expired state; a stale
persisted expiry (t = 100) discards the access token while the persisted
refresh token is still adopted. -/
theorem C10_access_token_restored_only_when_fresh_witness :
    (∃ e, (some (Api.ExpiryField.valid 1000) : Option Api.ExpiryField)
        = some (.valid e) ∧ (0 : Int) < e - 300 ∧
      (Api.TokenState.init "rt-b" "cid" 0
        (.content ⟨some "rt-p", some "at-p", some (.valid 1000)⟩)).access_token
        = some "at-p" ∧
      (Api.TokenState.init "rt-b" "cid" 0
        (.content ⟨some "rt-p", some "at-p", some (.valid 1000)⟩)).token_expiry
        = some e) ∧
    ((Api.TokenState.init "rt-b" "cid" 0
        (.content ⟨some "rt-p", some "at-p", some (.valid 1000)⟩)).is_expired 0
      = false) ∧
    ((Api.TokenState.init "rt-b" "cid" 0
        (.content ⟨some "rt-p", some "at-p", some (.valid 100)⟩)).access_token
      = none ∧
     (Api.TokenState.init "rt-b" "cid" 0
        (.content ⟨some "rt-p", some "at-p", some (.valid 100)⟩)).refresh_token
      = "rt-p") := by
  refine ⟨?_, ?_, ?_⟩
  · exact C10_access_token_restored_only_when_fresh.1 "rt-b" "cid" 0
      ⟨some "rt-p", some "at-p", some (.valid 1000)⟩ (by decide)
  · exact C10_access_token_restored_only_when_fresh.2.1 "rt-b" "cid" 0
      ⟨some "rt-p", some "at-p", some (.valid 1000)⟩ "at-p" (by decide) (by decide)
  · have h := C10_access_token_restored_only_when_fresh.2.2 "rt-b" "cid" 0
      ⟨some "rt-p", some "at-p", some (.valid 100)⟩ 100 rfl (by decide)
    exact ⟨h.1, h.2 "rt-p" rfl (by decide)⟩

/-- C5: when the provider exchange succeeds but the persistence write fails
(file write error in the file strategy; Railway round-trip failure or
missing Railway credentials in the remote strategy), refresh still returns
success, the durable store is left untouched, and the in-memory
access_token, token_expiry and refresh_token updates stand. -/
theorem C5_persistence_failure_never_surfaced :
    (∀ (st : Api.TokenState) (now : Int) (r : Api.ProviderJson)
        (fileBefore : Option Api.FileRecord),
      st.refresh_token ≠ "" → st.client_id ≠ "" →
      (st.refresh now (.ok r) false fileBefore).success = true ∧
      (st.refresh now (.ok r) false fileBefore).fileAfter = fileBefore ∧
      (st.refresh now (.ok r) false fileBefore).state.access_token
        = r.access_token ∧
      (st.refresh now (.ok r) false fileBefore).state.token_expiry
        = some (now + r.expires_in.getD 3600) ∧
      (st.refresh now (.ok r) false fileBefore).state.refresh_token =
        (match r.refresh_token with
         | some nr =>
           if pyTruthy nr ∧ nr ≠ st.refresh_token then nr else st.refresh_token
         | none => st.refresh_token)) ∧
    (∀ (st : Fixed.TokenState) (now : Int) (r : Api.ProviderJson)
        (railwayOk : Bool) (remoteBefore : String),
      st.refresh_token ≠ "" → st.client_id ≠ "" →
      (railwayOk = false ∨ st.railway_token = "") →
      (st.refresh now (.ok r) railwayOk remoteBefore).success = true ∧
      (st.refresh now (.ok r) railwayOk remoteBefore).remoteAfter
        = remoteBefore ∧
      (st.refresh now (.ok r) railwayOk remoteBefore).state.access_token
        = r.access_token ∧
      (st.refresh now (.ok r) railwayOk remoteBefore).state.token_expiry
        = some (now + r.expires_in.getD 3600) ∧
      (st.refresh now (.ok r) railwayOk remoteBefore).state.refresh_token =
        (match r.refresh_token with
         | some nr =>
           if pyTruthy nr ∧ nr ≠ st.refresh_token then nr else st.refresh_token
         | none => st.refresh_token)) := by
  constructor
  · intro st now r fileBefore hr hc
    unfold Api.TokenState.refresh
    rcases hrt : r.refresh_token with _ | nr
    · simp [pyTruthy, hr, hc, hrt]
    · simp [pyTruthy, hr, hc, hrt]
      split_ifs with h <;> simp
  · intro st now r railwayOk remoteBefore hr hc hfail
    unfold Fixed.TokenState.refresh Fixed.persistRefreshToken
    rcases hrt : r.refresh_token with _ | nr
    · simp [pyTruthy, hr, hc, hrt]
    · simp [pyTruthy, hr, hc, hrt]
      split_ifs with h1 h2 h3 <;> simp_all [pyTruthy]

/-- Witness for C5 at concrete inputs: a failing file write in the file
strategy, and missing Railway credentials in the remote strategy; both
refreshes succeed and the in-memory rotation stands. -/
theorem C5_persistence_failure_never_surfaced_witness :
    ((Api.TokenState.refresh ⟨none, "rt-old", "cid", none⟩ 0
        (.ok ⟨some "at-1", some "rt-new", some 3600⟩) false
        (some ⟨"rt-old", none, none, 0⟩)).success = true ∧
     (Api.TokenState.refresh ⟨none, "rt-old", "cid", none⟩ 0
        (.ok ⟨some "at-1", some "rt-new", some 3600⟩) false
        (some ⟨"rt-old", none, none, 0⟩)).fileAfter
       = some ⟨"rt-old", none, none, 0⟩ ∧
     (Api.TokenState.refresh ⟨none, "rt-old", "cid", none⟩ 0
        (.ok ⟨some "at-1", some "rt-new", some 3600⟩) false
        (some ⟨"rt-old", none, none, 0⟩)).state.access_token = some "at-1" ∧
     (Api.TokenState.refresh ⟨none, "rt-old", "cid", none⟩ 0
        (.ok ⟨some "at-1", some "rt-new", some 3600⟩) false
        (some ⟨"rt-old", none, none, 0⟩)).state.token_expiry = some 3600 ∧
     (Api.TokenState.refresh ⟨none, "rt-old", "cid", none⟩ 0
        (.ok ⟨some "at-1", some "rt-new", some 3600⟩) false
        (some ⟨"rt-old", none, none, 0⟩)).state.refresh_token = "rt-new") ∧
    ((Fixed.TokenState.refresh ⟨none, "rt-old", "cid", none, "", "", ""⟩ 0
        (.ok ⟨some "at-1", some "rt-new", some 3600⟩) true "rt-old").success
       = true ∧
     (Fixed.TokenState.refresh ⟨none, "rt-old", "cid", none, "", "", ""⟩ 0
        (.ok ⟨some "at-1", some "rt-new", some 3600⟩) true "rt-old").remoteAfter
       = "rt-old" ∧
     (Fixed.TokenState.refresh ⟨none, "rt-old", "cid", none, "", "", ""⟩ 0
        (.ok ⟨some "at-1", some "rt-new", some 3600⟩) true "rt-old").state.access_token
       = some "at-1" ∧
     (Fixed.TokenState.refresh ⟨none, "rt-old", "cid", none, "", "", ""⟩ 0
        (.ok ⟨some "at-1", some "rt-new", some 3600⟩) true "rt-old").state.token_expiry
       = some 3600 ∧
     (Fixed.TokenState.refresh ⟨none, "rt-old", "cid", none, "", "", ""⟩ 0
        (.ok ⟨some "at-1", some "rt-new", some 3600⟩) true "rt-old").state.refresh_token
       = "rt-new") := by
  constructor
  · exact C5_persistence_failure_never_surfaced.1 ⟨none, "rt-old", "cid", none⟩ 0
      ⟨some "at-1", some "rt-new", some 3600⟩ (some ⟨"rt-old", none, none, 0⟩)
      (by decide) (by decide)
  · exact C5_persistence_failure_never_surfaced.2
      ⟨none, "rt-old", "cid", none, "", "", ""⟩ 0
      ⟨some "at-1", some "rt-new", some 3600⟩ true "rt-old"
      (by decide) (by decide) (Or.inr rfl)

/-- C1 counterexample: during a successful refresh that rotates the token,
the token-state file write fails (scenario E of the spec); refresh reports
success and the in-memory refresh_token is the new value, yet the saved file
record still holds the old value — so the claim, which asserts the saved
record contains the new value after every such refresh, is false here. -/
theorem C1_counterexample_failed_save_keeps_old_record :
    (Api.TokenState.refresh ⟨none, "rt-old", "cid", none⟩ 0
        (.ok ⟨some "at-1", some "rt-new", some 3600⟩) false
        (some ⟨"rt-old", none, none, 0⟩)).success = true ∧
    (Api.TokenState.refresh ⟨none, "rt-old", "cid", none⟩ 0
        (.ok ⟨some "at-1", some "rt-new", some 3600⟩) false
        (some ⟨"rt-old", none, none, 0⟩)).state.refresh_token = "rt-new" ∧
    (Api.TokenState.refresh ⟨none, "rt-old", "cid", none⟩ 0
        (.ok ⟨some "at-1", some "rt-new", some 3600⟩) false
        (some ⟨"rt-old", none, none, 0⟩)).fileAfter
      = some ⟨"rt-old", none, none, 0⟩ ∧
    ("rt-old" : String) ≠ "rt-new" := by
  decide

/-- C1 (amended): for every successful refresh whose provider response
carries a truthy refresh_token different from the one sent, the manager's
refresh_token equals the new value afterwards, and — whenever the
persistence write itself succeeds — the saved record (the file record in the
file strategy, the remote configuration value in the remote strategy)
contains the new value. -/
theorem C1_rotated_token_updated_and_persisted :
    (∀ (st : Api.TokenState) (now : Int) (r : Api.ProviderJson)
        (persistOk : Bool) (fileBefore : Option Api.FileRecord) (nr : String),
      st.refresh_token ≠ "" → st.client_id ≠ "" →
      r.refresh_token = some nr → nr ≠ "" → nr ≠ st.refresh_token →
      (st.refresh now (.ok r) persistOk fileBefore).success = true ∧
      (st.refresh now (.ok r) persistOk fileBefore).state.refresh_token = nr ∧
      (persistOk = true →
        (st.refresh now (.ok r) persistOk fileBefore).fileAfter.map
          Api.FileRecord.refresh_token = some nr)) ∧
    (∀ (st : Fixed.TokenState) (now : Int) (r : Api.ProviderJson)
        (railwayOk : Bool) (remoteBefore : String) (nr : String),
      st.refresh_token ≠ "" → st.client_id ≠ "" →
      r.refresh_token = some nr → nr ≠ "" → nr ≠ st.refresh_token →
      (st.refresh now (.ok r) railwayOk remoteBefore).success = true ∧
      (st.refresh now (.ok r) railwayOk remoteBefore).state.refresh_token = nr ∧
      (railwayOk = true → st.railway_token ≠ "" → st.railway_env_id ≠ "" →
        st.railway_service_id ≠ "" →
        (st.refresh now (.ok r) railwayOk remoteBefore).remoteAfter = nr)) := by
  constructor
  · intro st now r persistOk fileBefore nr hr hc hrt hne hdiff
    unfold Api.TokenState.refresh
    simp [pyTruthy, hr, hc, hrt, hne, hdiff, Api.persistState]
    intro hp
    simp [hp]
  · intro st now r railwayOk remoteBefore nr hr hc hrt hne hdiff
    unfold Fixed.TokenState.refresh Fixed.persistRefreshToken
    simp [pyTruthy, hr, hc, hrt, hne, hdiff]
    intro hp hw he hs
    simp [hp, hw, he, hs]

/-- Witness for the amended C1 at concrete inputs: a rotation with the file
write succeeding, and a rotation with the Railway mutation succeeding. -/
theorem C1_rotated_token_updated_and_persisted_witness :
    ((Api.TokenState.refresh ⟨none, "rt-old", "cid", none⟩ 0
        (.ok ⟨some "at-1", some "rt-new", some 3600⟩) true none).success = true ∧
     (Api.TokenState.refresh ⟨none, "rt-old", "cid", none⟩ 0
        (.ok ⟨some "at-1", some "rt-new", some 3600⟩) true none).state.refresh_token
       = "rt-new" ∧
     (Api.TokenState.refresh ⟨none, "rt-old", "cid", none⟩ 0
        (.ok ⟨some "at-1", some "rt-new", some 3600⟩) true none).fileAfter.map
          Api.FileRecord.refresh_token = some "rt-new") ∧
    ((Fixed.TokenState.refresh ⟨none, "rt-old", "cid", none, "rw", "env", "svc"⟩ 0
        (.ok ⟨some "at-1", some "rt-new", some 3600⟩) true "rt-old").success
       = true ∧
     (Fixed.TokenState.refresh ⟨none, "rt-old", "cid", none, "rw", "env", "svc"⟩ 0
        (.ok ⟨some "at-1", some "rt-new", some 3600⟩) true "rt-old").state.refresh_token
       = "rt-new" ∧
     (Fixed.TokenState.refresh ⟨none, "rt-old", "cid", none, "rw", "env", "svc"⟩ 0
        (.ok ⟨some "at-1", some "rt-new", some 3600⟩) true "rt-old").remoteAfter
        = "rt-new") := by
  constructor
  · have h := C1_rotated_token_updated_and_persisted.1
      ⟨none, "rt-old", "cid", none⟩
      0 ⟨some "at-1", some "rt-new", some 3600⟩ true none "rt-new"
      (by decide) (by decide) rfl (by decide) (by decide)
    exact ⟨h.1, h.2.1, h.2.2 rfl⟩
  · have h := C1_rotated_token_updated_and_persisted.2
      ⟨none, "rt-old", "cid", none, "rw", "env", "svc"⟩ 0
      ⟨some "at-1", some "rt-new", some 3600⟩ true "rt-old" "rt-new"
      (by decide) (by decide) rfl (by decide) (by decide)
    exact ⟨h.1, h.2.1, h.2.2 rfl (by decide) (by decide) (by decide)⟩

/-- C4 (code bug, both variants): on a well-formed 2xx response with no
access_token field, refresh returns success instead of failure, overwrites
access_token with the absent value, sets a fresh expiry, and — in the file
strategy — persists that state; the spec requires failure with no mutation. -/
theorem C4_missing_access_token_accepted_as_success :
    (Api.TokenState.refresh ⟨some "at-0", "rt-old", "cid", some 100⟩ 0
        (.ok ⟨none, none, none⟩) true (some ⟨"rt-old", some "at-0", some 100, 0⟩))
      = ⟨⟨none, "rt-old", "cid", some 3600⟩, true, true,
          some ⟨"rt-old", none, some 3600, 0⟩⟩ ∧
    (Fixed.TokenState.refresh ⟨some "at-0", "rt-old", "cid", some 100, "", "", ""⟩
        0 (.ok ⟨none, none, none⟩) true "rt-old")
      = ⟨⟨none, "rt-old", "cid", some 3600, "", "", ""⟩, true, true, "rt-old"⟩ := by
  decide

/-- C8 (code bug): from a freshly constructed state, a single refresh on a
2xx response lacking access_token reaches a state whose token_expiry is set
while access_token is absent, violating the set-and-cleared-together
invariant — and the refresh reports success. -/
theorem C8_invariant_broken_by_access_token_free_response :
    ((Api.TokenState.init "rt-old" "cid" 0 .missing).refresh 0
        (.ok ⟨none, some "rt-new", some 3600⟩) true none).state.access_token
      = none ∧
    ((Api.TokenState.init "rt-old" "cid" 0 .missing).refresh 0
        (.ok ⟨none, some "rt-new", some 3600⟩) true none).state.token_expiry
      = some 3600 ∧
    ((Api.TokenState.init "rt-old" "cid" 0 .missing).refresh 0
        (.ok ⟨none, some "rt-new", some 3600⟩) true none).success = true := by
  decide

/-- C9 counterexample: on a state with no access token, the health handler's
internal get_token call performs a provider call and mutates TokenState, so
the status query is not read-only as claimed. -/
theorem C9_counterexample_health_triggers_refresh :
    (Api.health ⟨none, "rt-old", "cid", none⟩ 0
        (.ok ⟨some "at-1", some "rt-new", some 3600⟩) true none).providerCalled
      = true ∧
    (Api.health ⟨none, "rt-old", "cid", none⟩ 0
        (.ok ⟨some "at-1", some "rt-new", some 3600⟩) true none).state
      ≠ ⟨none, "rt-old", "cid", none⟩ := by
  decide

/-- C9 (amended): whenever the current access token is valid (is_expired is
false), the health handler leaves every field of TokenState unchanged and
makes no provider call, while reporting credential validity, the expiry
timestamp, and — in the file-strategy variant — only the first ten
characters of the refresh token; on an expired state it performs the same
refresh as get_token. -/
theorem C9_health_read_only_when_token_valid :
    (∀ (st : Api.TokenState) (now : Int) (provider : Api.ProviderResult)
        (persistOk : Bool) (fileBefore : Option Api.FileRecord),
      st.is_expired now = false →
      Api.health st now provider persistOk fileBefore =
        ⟨st,
          ⟨pyTruthyOpt st.access_token, st.access_token.isSome, st.token_expiry,
            fileBefore.isSome,
            if pyTruthy st.refresh_token then
              some (st.refresh_token.take 10 ++ "...")
            else none⟩,
          false, fileBefore⟩) ∧
    (∀ (st : Fixed.TokenState) (now : Int) (provider : Api.ProviderResult)
        (railwayOk : Bool) (remoteBefore : String),
      st.is_expired now = false →
      Fixed.health st now provider railwayOk remoteBefore =
        ⟨st,
          ⟨pyTruthyOpt st.access_token, st.access_token.isSome, st.token_expiry,
            pyTruthy st.railway_token⟩,
          false, remoteBefore⟩) := by
  constructor
  · intro st now provider persistOk fileBefore hexp
    unfold Api.health Api.TokenState.get_token
    simp [hexp]
  · intro st now provider railwayOk remoteBefore hexp
    unfold Fixed.health Fixed.TokenState.get_token
    simp [hexp]

/-- Witness for the amended C9 at concrete non-expired states in both
variants. -/
theorem C9_health_read_only_when_token_valid_witness :
    (Api.health ⟨some "at-1", "rt-old", "cid", some 1000⟩ 0 .netError true
        (some ⟨"rt-old", some "at-1", some 1000, 0⟩) =
      ⟨⟨some "at-1", "rt-old", "cid", some 1000⟩,
        ⟨true, true, some 1000, true, some "rt-old..."⟩,
        false, some ⟨"rt-old", some "at-1", some 1000, 0⟩⟩) ∧
    (Fixed.health ⟨some "at-1", "rt-old", "cid", some 1000, "rw", "env", "svc"⟩ 0
        .netError true "rt-old" =
      ⟨⟨some "at-1", "rt-old", "cid", some 1000, "rw", "env", "svc"⟩,
        ⟨true, true, some 1000, true⟩, false, "rt-old"⟩) := by
  constructor
  · exact C9_health_read_only_when_token_valid.1
      ⟨some "at-1", "rt-old", "cid", some 1000⟩ 0 .netError true
      (some ⟨"rt-old", some "at-1", some 1000, 0⟩) (by decide)
  · exact C9_health_read_only_when_token_valid.2
      ⟨some "at-1", "rt-old", "cid", some 1000, "rw", "env", "svc"⟩ 0
      .netError true "rt-old" (by decide)
